import Mathlib

/-!
Shallow embedding of the supersplat viewer bootstrap:
`src/core/observe.ts` (observable state container) and the unnamed main
module (`loadGsplat`, `loadSkybox`, `main`).

Machine numbers are modelled as `ℚ` (JS numbers on the inputs considered
here are exact), JS `undefined` is an explicit `Value.undef` / `Option.none`,
and JS string operations used by the code (`toLowerCase`, `endsWith`) are
re-implemented over character lists so that the kernel can evaluate them.
-/

namespace Supersplat

/-! ### Observable state container — `src/core/observe.ts`

The container is a `Proxy` over a plain object.  We model the target object
as an association list from property names to primitive values, the set of
captured member keys, and the proxy's `set` trap as a function returning the
updated target, the trap's boolean result, the events fired on the event
bus, and the strings written to the diagnostic (console error) channel.
The proxy declares no `get` trap, so reads forward to the target object. -/

/-- A JS primitive value stored in the state object: `undefined`, a boolean,
a number, or a string.  JS strict (in)equality `!==` on these primitives is
value inequality, modelled by decidable equality on this type. -/
inductive Value where
  | undef : Value
  | vBool : Bool → Value
  | vNum : ℚ → Value
  | vStr : String → Value
deriving DecidableEq

/-- A JS property key: a string, or a symbol (identified by an id). -/
inductive PropKey where
  | str : String → PropKey
  | sym : Nat → PropKey
deriving DecidableEq

/-- The proxy's target object: an association list of named fields. -/
abbrev Target := List (String × Value)

/-- JS property read `target[f]`: the stored value, or `undefined` when the
property is absent. -/
def getProp : Target → String → Value
  | [], _ => Value.undef
  | p :: rest, f => if p.1 = f then p.2 else getProp rest f

/-- JS property write `target[f] = v`: updates the existing property, or
adds it when absent. -/
def setProp : Target → String → Value → Target
  | [], f, v => [(f, v)]
  | p :: rest, f, v => if p.1 = f then (f, v) :: rest else p :: setProp rest f v

/-- The member keys captured at construction: `Object.keys(target)`. -/
def memberKeys (t : Target) : List String := t.map Prod.fst

/-- An event fired on the event bus: `events.fire(name, value, prev)`. -/
structure Event where
  name : String
  newValue : Value
  prevValue : Value
deriving DecidableEq

/-- Event name convention: for field `f` the event is `f ++ ":changed"`. -/
def changedEvent (f : String) : String := f ++ (":changed")

/-- Diagnostic text of `console.error('Cannot set symbol property on target')`. -/
def symbolErrorMsg : String := "Cannot set symbol property on target"

/-- Diagnostic text of `console.error('Cannot set new property on target:', property)`. -/
def newPropErrorMsg (f : String) : String := ("Cannot set new property on target: ") ++ f

/-- Everything observable about one invocation of the proxy's `set` trap:
the resulting target object, the trap's return value, the events fired on
the event bus, and the diagnostics reported. -/
structure SetOutcome where
  target : Target
  ok : Bool
  events : List Event
  diagnostics : List String
deriving DecidableEq

/-- The proxy `set` trap of `observe` (`src/core/observe.ts`, lines 8–29):
reject symbol keys, reject keys outside the captured member set, then store
and fire `"<field>:changed"` only when the value differs from the stored one. -/
def observeSet (members : List String) (t : Target) (k : PropKey) (value : Value) :
    SetOutcome :=
  match k with
  | PropKey.sym _ => ⟨t, false, [], [symbolErrorMsg]⟩
  | PropKey.str f =>
    if f ∈ members then
      if getProp t f ≠ value then
        ⟨setProp t f value, true, [⟨changedEvent f, value, getProp t f⟩], []⟩
      else
        ⟨t, true, [], []⟩
    else
      ⟨t, false, [], [newPropErrorMsg f]⟩

/-- Result of a property read through the proxy. -/
structure GetOutcome where
  result : Value
  diagnostics : List String
deriving DecidableEq

/-- A property read through the proxy.  The handler object of `observe`
declares no `get` trap, so the read forwards to the target object and
reports nothing on the diagnostic channel. -/
def observeGet (t : Target) (f : String) : GetOutcome := ⟨getProp t f, []⟩

/-- Repeated invocation of the `set` trap with the same field and value:
the final target, all events fired, and the conjunction of the returned
statuses. -/
def observeSetMany (members : List String) (f : String) (v : Value) :
    Nat → Target → Target × List Event × Bool
  | 0, t => (t, [], true)
  | n + 1, t =>
    let o := observeSet members t (PropKey.str f) v
    let r := observeSetMany members f v n o.target
    (r.1, o.events ++ r.2.1, o.ok && r.2.2)

/-- Writing a field then reading it back yields the written value. -/
theorem getProp_setProp (t : Target) (f : String) (v : Value) :
    getProp (setProp t f v) f = v := by
  induction t with
  | nil => simp [getProp, setProp]
  | cons p rest ih =>
    by_cases h : p.1 = f
    · simp [getProp, setProp, h]
    · simp [getProp, setProp, h, ih]

/-! ### Content loader — `loadGsplat` (main module, lines 26–65)

String handling: the code lower-cases the filename with
`String.prototype.toLowerCase` and tests it with `===`/`endsWith`.  The
filenames involved are ASCII, so lower-casing is modelled as the ASCII
case map over the character list. -/

/-- ASCII lower-casing of one character, the `A`–`Z` range mapped to
`a`–`z` as `toLowerCase` does on ASCII input. -/
def jsCharLower (c : Char) : Char :=
  if 65 ≤ c.toNat ∧ c.toNat ≤ 90 then Char.ofNat (c.toNat + 32) else c

/-- `filename.toLowerCase()` on ASCII filenames. -/
def jsToLower (s : String) : String := String.mk (s.data.map jsCharLower)

/-- `s.endsWith(suffix)`. -/
def jsEndsWith (s suf : String) : Bool := suf.data.isSuffixOf s.data

/-- The reserved manifest filename compared against on line 30. -/
def metaFilename : String := "meta.json"

/-- The level-of-detail manifest suffix tested on line 38. -/
def lodMetaName : String := "lod-meta.json"

/-- The gsplat `Asset` as constructed on lines 30–31: the filename, the raw
contents buffer (always passed through verbatim), and the optional
structured metadata, present exactly when the lower-cased filename is the
reserved manifest name, in which case the referenced buffer is deserialized
(`await contents.json()`, abstracted as `parseJson`). -/
structure GsplatAsset (β μ : Type) where
  filename : String
  contents : β
  data : Option μ
deriving DecidableEq

/-- Construction of the gsplat asset (line 30–31): deserialize the buffer
as structured metadata when the lower-cased filename is `meta.json`,
otherwise pass the raw buffer with no metadata. -/
def mkGsplatAsset {β μ : Type} (parseJson : β → μ) (filename : String) (contents : β) :
    GsplatAsset β μ :=
  ⟨filename, contents,
    if jsToLower filename = metaFilename then some (parseJson contents) else none⟩

/-- The `unified` component option of line 38:
`unified || filename.toLowerCase().endsWith('lod-meta.json')`. -/
def unifiedFlag (unified : Bool) (filename : String) : Bool :=
  unified || jsEndsWith (jsToLower filename) lodMetaName

/-! ### Progress watermark — `loadGsplat` (lines 48–55)

`watermark` starts at `0`; on each progress report
`progress = Math.min(1, received / length) * 100` and, when
`progress > watermark`, the watermark is raised and
`progressCallback(Math.trunc(watermark))` is invoked.  Byte counts are
naturals; the real arithmetic is exact on rationals, so the embedding is
faithful whenever `length > 0` (the JS code would produce `Infinity`/`NaN`
on a zero denominator, outside this model). -/

/-- `Math.trunc`: rounding toward zero. -/
def jsTrunc (q : ℚ) : ℤ := if 0 ≤ q then ⌊q⌋ else -⌊-q⌋

/-- The state of the progress handler of one load: the current (rational)
watermark and the integers passed to `progressCallback` so far, in order. -/
structure ProgressState where
  watermark : ℚ
  reports : List ℤ

/-- One `asset.on('progress', ...)` callback invocation (lines 49–55). -/
def progressStep (st : ProgressState) (received length : Nat) : ProgressState :=
  let progress := min 1 ((received : ℚ) / (length : ℚ)) * 100
  if st.watermark < progress then
    ⟨progress, st.reports ++ [jsTrunc progress]⟩
  else
    st

/-- A whole sequence of progress reports for one load, starting from
`watermark = 0` and no callback invocations (line 48). -/
def progressRun (rs : List (Nat × Nat)) : ProgressState :=
  rs.foldl (fun st r => progressStep st r.1 r.2) ⟨0, []⟩

/-- Invariant maintained by the progress handler: the watermark stays in
`[0, 100]`, reported integers are non-decreasing, lie in `[0, 100]`, and
are all bounded by the truncation of the current watermark. -/
def progressInv (st : ProgressState) : Prop :=
  0 ≤ st.watermark ∧ st.watermark ≤ 100 ∧
  List.Pairwise (fun a b => a ≤ b) st.reports ∧
  (∀ r ∈ st.reports, 0 ≤ r ∧ r ≤ 100) ∧
  (∀ r ∈ st.reports, r ≤ jsTrunc st.watermark)

theorem progressStep_inv (st : ProgressState) (received length : Nat)
    (h : progressInv st) : progressInv (progressStep st received length) := by
  obtain ⟨h0, h100, hpw, hbd, hle⟩ := h
  unfold progressStep
  set progress := min 1 ((received : ℚ) / (length : ℚ)) * 100 with hp
  by_cases hlt : st.watermark < progress
  · have hprog0 : 0 ≤ progress := le_of_lt (lt_of_le_of_lt h0 hlt)
    have hprog100 : progress ≤ 100 := by
      have : min 1 ((received : ℚ) / (length : ℚ)) ≤ 1 := min_le_left _ _
      calc min 1 ((received : ℚ) / (length : ℚ)) * 100 ≤ 1 * 100 := by
            exact mul_le_mul_of_nonneg_right this (by norm_num)
        _ = 100 := by norm_num
    have htr : jsTrunc st.watermark ≤ jsTrunc progress := by
      simp only [jsTrunc, if_pos h0, if_pos hprog0]
      exact Int.floor_le_floor (le_of_lt hlt)
    have htr0 : 0 ≤ jsTrunc progress := by
      simp only [jsTrunc, if_pos hprog0]
      exact Int.floor_nonneg.mpr hprog0
    have htr100 : jsTrunc progress ≤ 100 := by
      simp only [jsTrunc, if_pos hprog0]
      have := Int.floor_le_floor hprog100
      simpa using this
    refine ⟨by simp [hlt, hprog0], by simp [hlt, hprog100], ?_, ?_, ?_⟩
    · simp only [if_pos hlt]
      rw [List.pairwise_append]
      refine ⟨hpw, List.pairwise_singleton _ _, ?_⟩
      intro a ha b hb
      simp only [List.mem_singleton] at hb
      subst hb
      exact le_trans (hle a ha) htr
    · simp only [if_pos hlt]
      intro r hr
      rcases List.mem_append.mp hr with hr | hr
      · exact hbd r hr
      · simp only [List.mem_singleton] at hr
        subst hr
        exact ⟨htr0, htr100⟩
    · simp only [if_pos hlt]
      intro r hr
      rcases List.mem_append.mp hr with hr | hr
      · exact le_trans (hle r hr) htr
      · simp only [List.mem_singleton] at hr
        subst hr
        exact le_refl _
  · simpa [hlt] using ⟨h0, h100, hpw, hbd, hle⟩

theorem progressRun_inv (rs : List (Nat × Nat)) : progressInv (progressRun rs) := by
  have hstart : progressInv ⟨0, []⟩ := by
    refine ⟨le_refl 0, by norm_num, List.Pairwise.nil, ?_, ?_⟩ <;> simp
  unfold progressRun
  generalize hinit : (⟨0, []⟩ : ProgressState) = st0
  rw [hinit] at hstart
  clear hinit
  induction rs generalizing st0 with
  | nil => simpa using hstart
  | cons r rest ih =>
    simp only [List.foldl_cons]
    exact ih _ (progressStep_inv _ _ _ hstart)

/-! ### Load orchestrator — `main` (main module, lines 92–194)

Skybox parameter resolution (lines 144–148) uses JS `||` for the URL,
projection and center and `??` for the scale; the skybox load is started
behind the guard `skyboxUrl && loadSkybox(...)` (lines 151–152) and the
resulting handle — a promise when started, the falsy URL value itself
otherwise — is handed to the `Viewer` (line 193).  An absent field is
`Option.none` (JS `undefined`); `||` skips falsy values (`undefined`,
the empty string), while `??` skips only `undefined`/`null`.  Center
values are arrays, which are always truthy in JS when present. -/

/-- JS truthiness of an optional string: `undefined` and `""` are falsy. -/
def strTruthy : Option String → Bool
  | none => false
  | some s => s != ""

/-- JS `a || b` on optional strings. -/
def jsOrStr (a b : Option String) : Option String :=
  if strTruthy a then a else b

/-- JS `a || b || d` with a non-empty string literal default `d`. -/
def jsOrStrDefault (a b : Option String) (d : String) : String :=
  match jsOrStr (jsOrStr a b) (some d) with
  | some s => s
  | none => d

/-- JS `a ?? b`: only `undefined`/`null` falls through. -/
def jsCoalesce (a b : Option ℚ) : Option ℚ :=
  match a with
  | some v => some v
  | none => b

/-- Line 147: `config.skyboxScale ?? settings.background.skyboxScale ?? 200`. -/
def skyboxScaleResolve (c s : Option ℚ) : ℚ :=
  match jsCoalesce c s with
  | some v => v
  | none => 200

/-- JS truthiness of an optional array value: any present array is truthy. -/
def centerTruthy : Option (ℚ × ℚ × ℚ) → Bool
  | none => false
  | some _ => true

/-- Line 148: `config.skyboxCenter || settings.background.skyboxCenter || [0, 0, 0]`. -/
def skyboxCenterResolve (c s : Option (ℚ × ℚ × ℚ)) : ℚ × ℚ × ℚ :=
  if centerTruthy c then c.getD (0, 0, 0)
  else if centerTruthy s then s.getD (0, 0, 0)
  else (0, 0, 0)

/-- The skybox-relevant part of the `Config` input of `main`. -/
structure Config where
  skyboxUrl : Option String
  skyboxProjection : Option String
  skyboxScale : Option ℚ
  skyboxCenter : Option (ℚ × ℚ × ℚ)
deriving DecidableEq

/-- The `settings.background` record read on lines 145–148. -/
structure Background where
  skyboxUrl : Option String
  skyboxProjection : Option String
  skyboxScale : Option ℚ
  skyboxCenter : Option (ℚ × ℚ × ℚ)
deriving DecidableEq

/-- The part of the imported settings that `main` reads for the skybox. -/
structure Settings where
  background : Background
deriving DecidableEq

/-- The skybox handle that `main` passes to the `Viewer` (line 193): either
the falsy resolved URL value itself (when no load was started), or the
pending promise of `loadSkybox(url).then(...)`. -/
inductive SkyboxHandle where
  | falsyValue : Option String → SkyboxHandle
  | pendingLoad : String → SkyboxHandle
deriving DecidableEq

/-- Whether a handle is a pending skybox future. -/
def SkyboxHandle.isPendingLoad : SkyboxHandle → Bool
  | SkyboxHandle.pendingLoad _ => true
  | SkyboxHandle.falsyValue _ => false

/-- Everything `main` decides about loads and skybox parameters: the
resolved parameters (lines 144–148), the unconditional content-load start
(lines 136–142), the number of skybox loads started, and the skybox handle
passed to the `Viewer` (lines 151–152, 193). -/
structure MainOutcome where
  skyboxUrl : Option String
  skyboxProjection : String
  skyboxScale : ℚ
  skyboxCenter : ℚ × ℚ × ℚ
  contentLoadStarted : Bool
  skyboxLoadsStarted : Nat
  skyboxLoad : SkyboxHandle
deriving DecidableEq

/-- The load-orchestration part of `main` (lines 136–152, 193). -/
def mainResolve (config : Config) (settings : Settings) : MainOutcome :=
  let url := jsOrStr config.skyboxUrl settings.background.skyboxUrl
  { skyboxUrl := url
    skyboxProjection :=
      jsOrStrDefault config.skyboxProjection settings.background.skyboxProjection ("box")
    skyboxScale := skyboxScaleResolve config.skyboxScale settings.background.skyboxScale
    skyboxCenter := skyboxCenterResolve config.skyboxCenter settings.background.skyboxCenter
    contentLoadStarted := true
    skyboxLoadsStarted := if strTruthy url then 1 else 0
    skyboxLoad :=
      if strTruthy url then SkyboxHandle.pendingLoad (url.getD (""))
      else SkyboxHandle.falsyValue url }

/-- The resolution rule as the specification words it, with "present"
read as "defined": the explicit configuration value if present, else the
settings-derived default if present, else the built-in default. -/
def specResolveOpt {α : Type} (c s : Option α) (d : α) : α :=
  match c with
  | some v => v
  | none =>
    match s with
    | some v => v
    | none => d

/-! ### Helper lemmas and fixtures -/

/-- Reading a property outside the key set yields `undefined`. -/
theorem getProp_not_mem (t : Target) (f : String) (h : f ∉ memberKeys t) :
    getProp t f = Value.undef := by
  induction t with
  | nil => rfl
  | cons p rest ih =>
    simp only [memberKeys, List.map_cons, List.mem_cons, not_or] at h
    simp only [getProp]
    rw [if_neg (fun he : p.1 = f => h.1 he.symm)]
    exact ih h.2

/-- A one-field state object used to instantiate the container theorems. -/
def stateT : Target := [(("progress"), Value.vNum 0)]

/-- The member keys captured from `stateT` at construction. -/
def stateMembers : List String := memberKeys stateT

/-! ### Claims -/

/-- Claim C2 (confirmed): for a field of the captured schema, `Set` with a
value different from the stored one stores it and fires exactly one
`"<field>:changed"` event carrying the new and previous values, returning
success; `Set` with the currently stored value, repeated any number of
times, returns success every time, fires zero events and leaves the state
unchanged. -/
theorem observe_set_change_on_difference (members : List String) (t : Target)
    (f : String) (v : Value) (hf : f ∈ members) :
    (getProp t f ≠ v →
      observeSet members t (PropKey.str f) v =
        ⟨setProp t f v, true, [⟨changedEvent f, v, getProp t f⟩], []⟩ ∧
      getProp (observeSet members t (PropKey.str f) v).target f = v) ∧
    (getProp t f = v →
      ∀ n : Nat, observeSetMany members f v n t = (t, [], true)) := by
  constructor
  · intro hne
    have h1 : observeSet members t (PropKey.str f) v =
        ⟨setProp t f v, true, [⟨changedEvent f, v, getProp t f⟩], []⟩ := by
      simp [observeSet, hf, hne]
    refine ⟨h1, ?_⟩
    rw [h1]
    exact getProp_setProp t f v
  · intro heq n
    have hstep : observeSet members t (PropKey.str f) v = ⟨t, true, [], []⟩ := by
      simp [observeSet, hf, heq]
    induction n with
    | zero => rfl
    | succ n ih => simp [observeSetMany, hstep, ih]

/-- Witness for C2: on the one-field state `{progress: 0}`, setting
`progress` to `25` stores it and fires the single change event, and
setting `progress` to its current value `0` three times fires nothing. -/
theorem observe_set_change_witness :
    getProp stateT ("progress") ≠ Value.vNum 25 ∧
    observeSet stateMembers stateT (PropKey.str ("progress")) (Value.vNum 25) =
      ⟨setProp stateT ("progress") (Value.vNum 25), true,
        [⟨changedEvent ("progress"), Value.vNum 25, getProp stateT ("progress")⟩], []⟩ ∧
    getProp stateT ("progress") = Value.vNum 0 ∧
    observeSetMany stateMembers ("progress") (Value.vNum 0) 3 stateT = (stateT, [], true) :=
  ⟨by decide,
   ((observe_set_change_on_difference stateMembers stateT _ _ (by decide)).1 (by decide)).1,
   by decide,
   (observe_set_change_on_difference stateMembers stateT _ _ (by decide)).2 (by decide) 3⟩

/-- Claim C3 (confirmed): `Set` on a key outside the captured schema —
including symbol keys — returns `false`, reports on the diagnostic
channel, fires no event and leaves every stored field unchanged; the trap
returns rather than throwing. -/
theorem observe_set_schema_enforcement (members : List String) (t : Target)
    (k : PropKey) (v : Value)
    (h : match k with
         | PropKey.str f => f ∉ members
         | PropKey.sym _ => True) :
    (observeSet members t k v).ok = false ∧
    (observeSet members t k v).events = [] ∧
    (observeSet members t k v).target = t ∧
    (observeSet members t k v).diagnostics ≠ [] := by
  cases k with
  | sym i => simp [observeSet]
  | str f => simp [observeSet, h]

/-- Witness for C3: on the one-field state, setting the unknown field
`bogusField` and setting a symbol key both fail with a diagnostic, no
event, and an unchanged target. -/
theorem observe_set_schema_witness :
    (("bogusField") ∉ stateMembers) ∧
    (observeSet stateMembers stateT (PropKey.str ("bogusField")) (Value.vNum 1)).ok = false ∧
    (observeSet stateMembers stateT (PropKey.str ("bogusField")) (Value.vNum 1)).events = [] ∧
    (observeSet stateMembers stateT (PropKey.str ("bogusField")) (Value.vNum 1)).target = stateT ∧
    (observeSet stateMembers stateT (PropKey.sym 0) (Value.vNum 1)).ok = false :=
  ⟨by decide,
   (observe_set_schema_enforcement stateMembers stateT _ _ (by decide)).1,
   (observe_set_schema_enforcement stateMembers stateT _ _ (by decide)).2.1,
   (observe_set_schema_enforcement stateMembers stateT _ _ (by decide)).2.2.1,
   (observe_set_schema_enforcement stateMembers stateT (PropKey.sym 0) _ trivial).1⟩

/-- Counterexample for C4: `Get` on the unknown field `bogusField` is not
rejected like `Set` — the proxy declares no `get` trap, so the read
forwards to the target, yields `undefined`, and reports nothing on the
diagnostic channel, whereas `Set` on the same field fails with a
diagnostic. -/
theorem observe_get_rejection_counterexample :
    (observeGet stateT ("bogusField")).diagnostics = [] ∧
    (observeGet stateT ("bogusField")).result = Value.undef ∧
    (observeSet stateMembers stateT (PropKey.str ("bogusField")) (Value.vNum 1)).diagnostics ≠ [] ∧
    (observeSet stateMembers stateT (PropKey.str ("bogusField")) (Value.vNum 1)).ok = false := by
  decide

/-- Claim C4 (amended): `Get` on a field outside the captured schema is not
intercepted: the proxy has no `get` trap, so the read forwards to the
target object and yields `undefined`, with no diagnostic report and no
failure indication. -/
theorem observe_get_not_intercepted (t : Target) (f : String)
    (h : f ∉ memberKeys t) :
    observeGet t f = ⟨Value.undef, []⟩ := by
  unfold observeGet
  rw [getProp_not_mem t f h]

/-- Witness for C4's amended claim at the unknown field `bogusField`. -/
theorem observe_get_witness :
    (("bogusField") ∉ memberKeys stateT) ∧
    observeGet stateT ("bogusField") = ⟨Value.undef, []⟩ :=
  ⟨by decide, observe_get_not_intercepted stateT _ (by decide)⟩

/-- Counterexample for C1: the watermark is a rational, not an integer, so
two reports whose exact progress values differ inside the same integer
cell both pass the `progress > watermark` guard and the callback receives
the same truncated integer twice: reports `(101, 400)` then `(102, 400)`
(progress 25.25 then 25.5) invoke the callback with `25` and then `25`
again, so the reported integers are not strictly increasing. -/
theorem progress_strict_increase_counterexample :
    (progressRun [(101, 400), (102, 400)]).reports = [25, 25] ∧
    ¬ List.Pairwise (fun a b : ℤ => a < b) (progressRun [(101, 400), (102, 400)]).reports := by
  have h : (progressRun [(101, 400), (102, 400)]).reports = [25, 25] := by
    unfold progressRun
    simp only [List.foldl_cons, List.foldl_nil]
    norm_num [progressStep, jsTrunc]
  refine ⟨h, ?_⟩
  rw [h]
  decide

/-- Claim C1 (amended): across any sequence of progress reports with
positive expected byte counts, the integers passed to the callback are
non-decreasing (duplicates are possible when two distinct rational
watermarks share an integer part) and bounded to `[0, 100]`; the watermark
is computed from received over expected bytes, saturated at `100`, and
truncated to an integer at reporting time. -/
theorem progress_reports_monotone (rs : List (Nat × Nat))
    (_h : ∀ p ∈ rs, 0 < p.2) :
    List.Pairwise (fun a b : ℤ => a ≤ b) (progressRun rs).reports ∧
    (∀ r ∈ (progressRun rs).reports, 0 ≤ r ∧ r ≤ 100) := by
  obtain ⟨-, -, hpw, hbd, -⟩ := progressRun_inv rs
  exact ⟨hpw, hbd⟩

/-- Witness for C1's amended claim on the two-report sequence of Scenario A. -/
theorem progress_reports_monotone_witness :
    (∀ p ∈ [((50 : Nat), (200 : Nat)), (200, 200)], 0 < p.2) ∧
    List.Pairwise (fun a b : ℤ => a ≤ b) (progressRun [(50, 200), (200, 200)]).reports ∧
    (∀ r ∈ (progressRun [(50, 200), (200, 200)]).reports, 0 ≤ r ∧ r ≤ 100) :=
  ⟨by decide,
   (progress_reports_monotone [(50, 200), (200, 200)] (by decide)).1,
   (progress_reports_monotone [(50, 200), (200, 200)] (by decide)).2⟩

/-- Claim C5 (confirmed): starting from watermark `0`, the reports
`received = 50, expected = 200` then `received = 200, expected = 200`
invoke the callback exactly twice, with `25` then `100`, in that order and
with no other values. -/
theorem progress_scenario_a :
    (progressRun [(50, 200), (200, 200)]).reports = [25, 100] := by
  unfold progressRun
  simp only [List.foldl_cons, List.foldl_nil]
  norm_num [progressStep, jsTrunc]

/-- Claim C7 (confirmed): when the lower-cased filename is the reserved
manifest name `meta.json`, the loader deserializes the referenced buffer
as structured metadata before constructing the asset; for any other
filename the raw buffer is used verbatim and no deserialization occurs. -/
theorem gsplat_manifest_detection {β μ : Type} (parseJson : β → μ)
    (filename : String) (contents : β) :
    (jsToLower filename = metaFilename →
      mkGsplatAsset parseJson filename contents =
        ⟨filename, contents, some (parseJson contents)⟩) ∧
    (jsToLower filename ≠ metaFilename →
      mkGsplatAsset parseJson filename contents = ⟨filename, contents, none⟩) := by
  constructor <;> intro h <;> simp [mkGsplatAsset, h]

/-- Witness for C7: the case-insensitive manifest name `META.json` is
deserialized, while `scene.sog` passes the raw buffer with no metadata. -/
theorem gsplat_manifest_witness :
    jsToLower ("META.json") = metaFilename ∧
    mkGsplatAsset (fun b : Nat => b + 1) ("META.json") 7 =
      ⟨("META.json"), 7, some 8⟩ ∧
    jsToLower ("scene.sog") ≠ metaFilename ∧
    mkGsplatAsset (fun b : Nat => b + 1) ("scene.sog") 7 =
      ⟨("scene.sog"), 7, none⟩ :=
  ⟨by decide,
   (gsplat_manifest_detection (fun b : Nat => b + 1) ("META.json") 7).1 (by decide),
   by decide,
   (gsplat_manifest_detection (fun b : Nat => b + 1) ("scene.sog") 7).2 (by decide)⟩

/-- Claim C9 (confirmed): a filename whose lower-cased form ends with
`lod-meta.json` forces the unified (aggregate) component option regardless
of the override flag, yet triggers no manifest deserialization — the
metadata argument stays absent — and deserialization happens only when the
lower-cased filename is exactly `meta.json`. -/
theorem gsplat_lod_unified (unified : Bool) (filename : String) :
    (jsEndsWith (jsToLower filename) lodMetaName = true →
      unifiedFlag unified filename = true ∧
      ∀ (β μ : Type) (parseJson : β → μ) (contents : β),
        (mkGsplatAsset parseJson filename contents).data = none) ∧
    (∀ (β μ : Type) (parseJson : β → μ) (contents : β),
      (mkGsplatAsset parseJson filename contents).data.isSome = true →
        jsToLower filename = metaFilename) := by
  constructor
  · intro h
    have hne : jsToLower filename ≠ metaFilename := by
      intro he
      rw [he] at h
      exact absurd h (by decide)
    exact ⟨by simp [unifiedFlag, h], fun β μ p c => by simp [mkGsplatAsset, hne]⟩
  · intro β μ p c h
    by_contra hne
    simp [mkGsplatAsset, hne] at h

/-- Witness for C9: `Scene-LOD-meta.json` forces the unified flag with the
override flag off, and its asset carries no metadata. -/
theorem gsplat_lod_unified_witness :
    jsEndsWith (jsToLower ("Scene-LOD-meta.json")) lodMetaName = true ∧
    unifiedFlag false ("Scene-LOD-meta.json") = true ∧
    (mkGsplatAsset (fun b : Nat => b) ("Scene-LOD-meta.json") 3).data = none :=
  ⟨by decide,
   ((gsplat_lod_unified false ("Scene-LOD-meta.json")).1 (by decide)).1,
   ((gsplat_lod_unified false ("Scene-LOD-meta.json")).1 (by decide)).2 Nat Nat (fun b => b) 3⟩

/-- A configuration whose skybox projection is present but empty. -/
def cfgEmptyProjection : Config := ⟨none, some (""), none, none⟩

/-- Settings whose background carries the `dome` skybox projection. -/
def setsDomeProjection : Settings := ⟨⟨none, some ("dome"), none, none⟩⟩

/-- Counterexample for C6: `||` skips a present-but-falsy configuration
value, so with an explicitly configured empty-string projection and a
settings default of `dome`, the code resolves `dome` while the claimed
precedence (explicit configuration value if present) would resolve the
empty string. -/
theorem skybox_resolution_counterexample :
    (mainResolve cfgEmptyProjection setsDomeProjection).skyboxProjection = ("dome") ∧
    specResolveOpt cfgEmptyProjection.skyboxProjection
      setsDomeProjection.background.skyboxProjection ("box") = ("") ∧
    (mainResolve cfgEmptyProjection setsDomeProjection).skyboxProjection ≠
      specResolveOpt cfgEmptyProjection.skyboxProjection
        setsDomeProjection.background.skyboxProjection ("box") := by
  refine ⟨by decide, by decide, by decide⟩

/-- Claim C6 (amended): the orchestrator resolves each effective skybox
parameter by precedence — explicit configuration value, else settings
default, else built-in default (projection `box`, scale `200`, center
origin) — where a string value (URL, projection) counts as present only
when defined and non-empty (JS `||` truthiness), while scale counts as
present whenever defined, even when `0` (JS `??`), and a present center
array always counts. -/
theorem skybox_resolution_precedence (config : Config) (settings : Settings) :
    (∀ v, config.skyboxUrl = some v → v ≠ ("") →
      (mainResolve config settings).skyboxUrl = some v) ∧
    ((config.skyboxUrl = none ∨ config.skyboxUrl = some ("")) →
      (mainResolve config settings).skyboxUrl = settings.background.skyboxUrl) ∧
    (∀ v, config.skyboxProjection = some v → v ≠ ("") →
      (mainResolve config settings).skyboxProjection = v) ∧
    (∀ v, (config.skyboxProjection = none ∨ config.skyboxProjection = some ("")) →
      settings.background.skyboxProjection = some v → v ≠ ("") →
      (mainResolve config settings).skyboxProjection = v) ∧
    ((config.skyboxProjection = none ∨ config.skyboxProjection = some ("")) →
      (settings.background.skyboxProjection = none ∨
        settings.background.skyboxProjection = some ("")) →
      (mainResolve config settings).skyboxProjection = ("box")) ∧
    (∀ q, config.skyboxScale = some q →
      (mainResolve config settings).skyboxScale = q) ∧
    (config.skyboxScale = none → ∀ q, settings.background.skyboxScale = some q →
      (mainResolve config settings).skyboxScale = q) ∧
    (config.skyboxScale = none → settings.background.skyboxScale = none →
      (mainResolve config settings).skyboxScale = 200) ∧
    (∀ v, config.skyboxCenter = some v →
      (mainResolve config settings).skyboxCenter = v) ∧
    (config.skyboxCenter = none → ∀ v, settings.background.skyboxCenter = some v →
      (mainResolve config settings).skyboxCenter = v) ∧
    (config.skyboxCenter = none → settings.background.skyboxCenter = none →
      (mainResolve config settings).skyboxCenter = (0, 0, 0)) := by
  refine ⟨?_, ?_, ?_, ?_, ?_, ?_, ?_, ?_, ?_, ?_, ?_⟩
  · intro v hv hne
    simp [mainResolve, jsOrStr, strTruthy, hv, hne]
  · intro hv
    rcases hv with hv | hv <;> simp [mainResolve, jsOrStr, strTruthy, hv]
  · intro v hv hne
    simp [mainResolve, jsOrStrDefault, jsOrStr, strTruthy, hv, hne]
  · intro v hc hs hne
    rcases hc with hc | hc <;>
      simp [mainResolve, jsOrStrDefault, jsOrStr, strTruthy, hc, hs, hne]
  · intro hc hs
    rcases hc with hc | hc <;> rcases hs with hs | hs <;>
      simp [mainResolve, jsOrStrDefault, jsOrStr, strTruthy, hc, hs]
  · intro q hq
    simp [mainResolve, skyboxScaleResolve, jsCoalesce, hq]
  · intro hc q hq
    simp [mainResolve, skyboxScaleResolve, jsCoalesce, hc, hq]
  · intro hc hs
    simp [mainResolve, skyboxScaleResolve, jsCoalesce, hc, hs]
  · intro v hv
    simp [mainResolve, skyboxCenterResolve, centerTruthy, hv]
  · intro hc v hv
    simp [mainResolve, skyboxCenterResolve, centerTruthy, hc, hv]
  · intro hc hs
    simp [mainResolve, skyboxCenterResolve, centerTruthy, hc, hs]

/-- A configuration with a URL and a zero scale, alongside settings
defaults, used to instantiate the precedence theorem. -/
def cfgPrecedence : Config := ⟨some ("https://example.com/sky.webp"), none, some 0, none⟩

/-- Settings supplying a projection, a scale and a center default. -/
def setsPrecedence : Settings := ⟨⟨none, some ("dome"), some 7, some (1, 2, 3)⟩⟩

/-- Witness for C6's amended claim: the configured URL wins, the settings
projection fills the absent configuration value, the configured scale `0`
wins over the settings scale under `??`, and the settings center fills in. -/
theorem skybox_resolution_precedence_witness :
    (mainResolve cfgPrecedence setsPrecedence).skyboxUrl =
      some ("https://example.com/sky.webp") ∧
    (mainResolve cfgPrecedence setsPrecedence).skyboxProjection = ("dome") ∧
    (mainResolve cfgPrecedence setsPrecedence).skyboxScale = 0 ∧
    (mainResolve cfgPrecedence setsPrecedence).skyboxCenter = (1, 2, 3) :=
  ⟨(skybox_resolution_precedence cfgPrecedence setsPrecedence).1 _ rfl (by decide),
   (skybox_resolution_precedence cfgPrecedence setsPrecedence).2.2.2.1 _
     (Or.inl rfl) rfl (by decide),
   (skybox_resolution_precedence cfgPrecedence setsPrecedence).2.2.2.2.2.1 _ rfl,
   (skybox_resolution_precedence cfgPrecedence setsPrecedence).2.2.2.2.2.2.2.2.2.1
     rfl _ rfl⟩

/-- Claim C8 (confirmed): the content load is started unconditionally; a
skybox load is started if and only if the effective URL — configuration
URL, else settings default — is resolvable (truthy); when both are absent
zero skybox loads start and the content load still proceeds. -/
theorem loader_start_conditions (config : Config) (settings : Settings) :
    (mainResolve config settings).contentLoadStarted = true ∧
    ((mainResolve config settings).skyboxLoadsStarted = 1 ↔
      strTruthy (jsOrStr config.skyboxUrl settings.background.skyboxUrl) = true) ∧
    ((mainResolve config settings).skyboxLoadsStarted = 0 ↔
      strTruthy (jsOrStr config.skyboxUrl settings.background.skyboxUrl) = false) ∧
    (config.skyboxUrl = none → settings.background.skyboxUrl = none →
      (mainResolve config settings).skyboxLoadsStarted = 0 ∧
      (mainResolve config settings).contentLoadStarted = true) := by
  by_cases h : strTruthy (jsOrStr config.skyboxUrl settings.background.skyboxUrl) = true
  · refine ⟨by simp [mainResolve], by simp [mainResolve, h], by simp [mainResolve, h], ?_⟩
    intro hc hs
    rw [hc, hs] at h
    exact absurd h (by decide)
  · simp only [Bool.not_eq_true] at h
    exact ⟨by simp [mainResolve], by simp [mainResolve, h], by simp [mainResolve, h],
      fun hc hs => ⟨by simp [mainResolve, h], by simp [mainResolve]⟩⟩

/-- A configuration with no skybox URL and no other skybox overrides. -/
def cfgNoSky : Config := ⟨none, none, none, none⟩

/-- Settings with no background skybox defaults. -/
def setsNoSky : Settings := ⟨⟨none, none, none, none⟩⟩

/-- Witness for C8: with no configured URL and no settings default, zero
skybox loads start and the content load still proceeds. -/
theorem loader_start_witness :
    (mainResolve cfgNoSky setsNoSky).skyboxLoadsStarted = 0 ∧
    (mainResolve cfgNoSky setsNoSky).contentLoadStarted = true :=
  (loader_start_conditions cfgNoSky setsNoSky).2.2.2 rfl rfl

/-- Claim C10 (confirmed): when no effective skybox URL resolves, the
skybox handle handed to the presentation layer is the falsy URL value
itself rather than a promise, and a pending skybox future exists at
hand-off if and only if a skybox load was actually started. -/
theorem skybox_hand_off (config : Config) (settings : Settings) :
    (strTruthy (jsOrStr config.skyboxUrl settings.background.skyboxUrl) = false →
      (mainResolve config settings).skyboxLoad =
        SkyboxHandle.falsyValue (jsOrStr config.skyboxUrl settings.background.skyboxUrl)) ∧
    ((mainResolve config settings).skyboxLoad.isPendingLoad = true ↔
      (mainResolve config settings).skyboxLoadsStarted = 1) := by
  by_cases h : strTruthy (jsOrStr config.skyboxUrl settings.background.skyboxUrl) = true
  · refine ⟨fun hf => ?_, by simp [mainResolve, h, SkyboxHandle.isPendingLoad]⟩
    rw [hf] at h
    exact absurd h (by decide)
  · simp only [Bool.not_eq_true] at h
    exact ⟨fun _ => by simp [mainResolve, h],
      by simp [mainResolve, h, SkyboxHandle.isPendingLoad]⟩

/-- Witness for C10: with no URL anywhere, the handle handed over is the
falsy resolved URL value (here JS `undefined`), not a pending future. -/
theorem skybox_hand_off_witness :
    strTruthy (jsOrStr cfgNoSky.skyboxUrl setsNoSky.background.skyboxUrl) = false ∧
    (mainResolve cfgNoSky setsNoSky).skyboxLoad = SkyboxHandle.falsyValue none :=
  ⟨by decide, (skybox_hand_off cfgNoSky setsNoSky).1 (by decide)⟩

end Supersplat
